import Mathlib

/-!
Verification of the decision-engine repository against its specification.

This file gives a shallow embedding, in Lean 4, of the parts of the
decision engine that the checked properties are about:

* `models/signals.py` — `Signal`, `AggregatedSignal`, `ConfidenceAggregator`
* `market_context.py` — `REGIME_MULTIPLIERS`, `MarketContextReader.get_multiplier`
* `service.py` — the bucket/majority decision of `_evaluate_rules`,
  `_aggregate_signals`, `_should_publish`, and the state-manager calls made
  by `_maybe_publish_rankings`
* `checklist.py` — `ChecklistEvaluator.evaluate` and `_get_earnings`
* `trade_planner.py` — `TradePlanEngine._calculate_stop`
* `state_manager.py` — `StateManager` per-symbol state and position operations

Python floats are modelled as rationals (`ℚ`); machine times are seconds
since the epoch as rationals.  Redis/Kafka interactions are modelled by
passing the outcome of the external read as an explicit argument.
-/

namespace DecisionEngine

/-- SignalType enum from rules/base.py. -/
inductive SignalType
  | BUY
  | SELL
  | WATCH
deriving DecidableEq, Repr

/-- The `.value` string of a SignalType member. -/
def SignalType.value : SignalType → String
  | .BUY => "BUY"
  | .SELL => "SELL"
  | .WATCH => "WATCH"

/-- Signal dataclass from models/signals.py: one rule's triggered result.
Timestamps are seconds since the epoch; `contributing_factors` values are
kept as strings (the code never reads them back). -/
structure Signal where
  rule_name : String
  rule_description : String
  signal_type : SignalType
  confidence : ℚ
  reasoning : String
  contributing_factors : List (String × String) := []
  timestamp : ℚ := 0
deriving DecidableEq, Repr

/-- AggregatedSignal dataclass from models/signals.py. -/
structure AggregatedSignal where
  symbol : String
  signal_type : SignalType
  aggregate_confidence : ℚ
  primary_reasoning : String
  contributing_signals : List Signal
  timestamp : ℚ
  rules_triggered : Nat := 0
  rules_evaluated : Nat := 0
  regime_id : String := "UNKNOWN"
  regime_confidence : ℚ := 0
deriving DecidableEq, Repr

/-- Python `dict.get(key, default)` over an association list. -/
def dictGet (d : List (String × ℚ)) (key : String) (default : ℚ) : ℚ :=
  match d.lookup key with
  | some v => v
  | none => default

/-- ConfidenceAggregator.weighted_average from models/signals.py.
When `weights` is `none` the code builds `{s.rule_name: 1.0}` over the
signals; lookups fall back to 1.0 for missing names. -/
def weighted_average (signals : List Signal)
    (weights : Option (List (String × ℚ))) : ℚ :=
  if signals = [] then 0
  else
    let w : List (String × ℚ) :=
      match weights with
      | some w => w
      | none => signals.map (fun s => (s.rule_name, (1 : ℚ)))
    let total_weight := (signals.map (fun s => dictGet w s.rule_name 1)).sum
    let weighted_sum :=
      (signals.map (fun s => s.confidence * dictGet w s.rule_name 1)).sum
    if 0 < total_weight then weighted_sum / total_weight else 0

/-- ConfidenceAggregator.consensus_boost from models/signals.py:
weighted-average base plus 5 percent per additional agreeing rule,
boost capped at 15 percent, result clamped to 1.0. -/
def consensus_boost (signals : List Signal) : ℚ :=
  if signals = [] then 0
  else
    let base_confidence := weighted_average signals none
    let agreement_boost := min (((signals.length : ℚ) - 1) * (5 / 100)) (15 / 100)
    min (base_confidence + agreement_boost) 1

/-- REGIME_MULTIPLIERS dict from market_context.py. -/
def REGIME_MULTIPLIERS : List (String × ℚ) :=
  [("BULL", 1), ("SIDEWAYS", 7 / 10), ("BEAR", 3 / 10), ("UNKNOWN", 1)]

/-- MarketContextReader.get_multiplier from market_context.py: non-BUY signal
types always get 1.0; BUY gets the regime lookup with default 1.0. -/
def get_multiplier (regime : String) (signal_type : String) : ℚ :=
  if signal_type ≠ "BUY" then 1
  else dictGet REGIME_MULTIPLIERS regime 1

/-- The observable part of MarketContextReader used by `_aggregate_signals`:
whether `self.market_context_reader` is set, and the regime values its
getters return at this moment. -/
structure MarketContextState where
  present : Bool
  regime : String
  regime_confidence : ℚ
deriving DecidableEq, Repr

/-- Python `max(signals, key=confidence)` starting from `first`: keeps the
earliest element on ties, replaces only on strictly greater confidence. -/
def maxByConfidence (first : Signal) (rest : List Signal) : Signal :=
  rest.foldl (fun acc s => if acc.confidence < s.confidence then s else acc) first

/-- DecisionEngineService._aggregate_signals from service.py.  The regime
multiplier is fetched for the signal type and applied (with a clamp to 1.0)
only when it differs from 1.0.  The Python `max` on an empty list would
raise; callers only pass non-empty lists, and the empty case here returns a
placeholder primary signal. -/
def aggregate_signals (ctx : MarketContextState) (symbol : String)
    (signal_type : SignalType) (signals : List Signal)
    (rules_evaluated : Nat) (timestamp : ℚ) : AggregatedSignal :=
  let ac0 := consensus_boost signals
  let regime_id := if ctx.present then ctx.regime else "UNKNOWN"
  let regime_confidence := if ctx.present then ctx.regime_confidence else 0
  let aggregate_confidence :=
    if ctx.present then
      let multiplier := get_multiplier ctx.regime signal_type.value
      if multiplier ≠ 1 then min (ac0 * multiplier) 1 else ac0
    else ac0
  let primary_signal :=
    match signals with
    | [] => ({ rule_name := "", rule_description := "", signal_type := signal_type,
               confidence := 0, reasoning := "" } : Signal)
    | first :: rest => maxByConfidence first rest
  { symbol := symbol
    signal_type := signal_type
    aggregate_confidence := aggregate_confidence
    primary_reasoning := primary_signal.reasoning
    contributing_signals := signals
    timestamp := timestamp
    rules_triggered := signals.length
    rules_evaluated := rules_evaluated
    regime_id := regime_id
    regime_confidence := regime_confidence }

/-- The aggregation section of rules.yaml read by `_evaluate_rules`, with the
`.get` defaults used there. -/
structure AggregationConfig where
  require_consensus : Bool := false
  consensus_min_rules : Nat := 1
deriving DecidableEq, Repr

/-- BUY bucket of the partition loop in `_evaluate_rules`. -/
def buyBucket (triggered : List Signal) : List Signal :=
  triggered.filter (fun s => s.signal_type = SignalType.BUY)

/-- SELL bucket of the partition loop in `_evaluate_rules`. -/
def sellBucket (triggered : List Signal) : List Signal :=
  triggered.filter (fun s => s.signal_type = SignalType.SELL)

/-- WATCH bucket of the partition loop in `_evaluate_rules`: the `else`
branch, everything neither BUY nor SELL. -/
def watchBucket (triggered : List Signal) : List Signal :=
  triggered.filter
    (fun s => s.signal_type ≠ SignalType.BUY ∧ s.signal_type ≠ SignalType.SELL)

/-- The decision part of DecisionEngineService._evaluate_rules (service.py,
from the bucket partition of the triggered per-rule signals onward):
strict-majority choice between BUY and SELL with the optional consensus
gate, WATCH fallback, `none` when nothing applies. -/
def evaluate_rules_decision (cfg : AggregationConfig) (ctx : MarketContextState)
    (symbol : String) (triggered : List Signal)
    (rules_evaluated : Nat) (timestamp : ℚ) : Option AggregatedSignal :=
  let buy_signals := buyBucket triggered
  let sell_signals := sellBucket triggered
  let watch_signals := watchBucket triggered
  if buy_signals ≠ [] ∧ sell_signals.length < buy_signals.length then
    if cfg.require_consensus ∧ buy_signals.length < cfg.consensus_min_rules then
      none
    else
      some (aggregate_signals ctx symbol SignalType.BUY buy_signals
        rules_evaluated timestamp)
  else if sell_signals ≠ [] ∧ buy_signals.length < sell_signals.length then
    if cfg.require_consensus ∧ sell_signals.length < cfg.consensus_min_rules then
      none
    else
      some (aggregate_signals ctx symbol SignalType.SELL sell_signals
        rules_evaluated timestamp)
  else if watch_signals ≠ [] then
    some (aggregate_signals ctx symbol SignalType.WATCH watch_signals
      rules_evaluated timestamp)
  else
    none

/-- SetupType enum from models/trade_plan.py. -/
inductive SetupType
  | OVERSOLD_BOUNCE
  | PULLBACK_TO_SUPPORT
  | BREAKOUT
  | SIGNAL
deriving DecidableEq, Repr

/-- TradePlan model from models/trade_plan.py.  Floats are rationals,
datetimes are epoch seconds. -/
structure TradePlan where
  setup_type : SetupType
  rules_contributed : List String
  entry_price : ℚ
  entry_zone_low : ℚ
  entry_zone_high : ℚ
  valid_until : ℚ
  stop_price : ℚ
  stop_method : String
  stop_pct : ℚ
  support_level_used : Option String := none
  target_1 : ℚ
  target_2 : ℚ
  symbol_target_pct : Option ℚ
  resistance_note : Option String
  target_1_probability : Option ℚ := none
  target_1_est_days : Option Nat := none
  target_2_probability : Option ℚ := none
  target_2_est_days : Option Nat := none
  price_context : Option String := none
  risk_reward_ratio : ℚ
  shares : Nat
  dollar_risk : ℚ
  risk_pct : ℚ
  position_value : ℚ
  goal_years : Option ℚ := none
  expected_annual_return : Option ℚ := none
  invalidation_price : ℚ
  plan_valid : Bool
  rr_warning : Option String
  warnings : List String
deriving DecidableEq, Repr

/-- Constant EARNINGS_HARD_GATE_DAYS from checklist.py. -/
def EARNINGS_HARD_GATE_DAYS : ℚ := 5

/-- Constant MAX_RISK_PCT_BLOCKED from checklist.py. -/
def MAX_RISK_PCT_BLOCKED : ℚ := 5

/-- Constant MAX_RISK_PCT_REVIEW from checklist.py. -/
def MAX_RISK_PCT_REVIEW : ℚ := 2

/-- Constant MIN_RR_RATIO from checklist.py (renamed: Lean-side hygiene). -/
def minRrRatio : ℚ := 2

/-- Constant BEAR_REGIMES from checklist.py. -/
def BEAR_REGIMES : List String := ["BEAR"]

/-- Constant EARNINGS_STALENESS_HOURS from checklist.py. -/
def EARNINGS_STALENESS_HOURS : ℚ := 24

/-- The updated_at field of the earnings JSON payload as `_get_earnings`
consumes it: `unusable` covers the field being absent, falsy, or failing
`float()` (the staleness check is skipped in all those cases); `at_time t`
is a truthy value that parses to the timestamp `t`. -/
inductive UpdatedAt
  | unusable
  | at_time (t : ℚ)
deriving DecidableEq, Repr

/-- Earnings JSON payload stored under robinhood:earnings:SYMBOL, as read by
checklist.py (`days_away`, `date`, `verified`, `updated_at`). -/
structure EarningsData where
  days_away : Option ℚ := none
  date : Option String := none
  verified : Option Bool := none
  updated_at : UpdatedAt := .unusable
deriving DecidableEq, Repr

/-- Outcome of the Redis interaction inside ChecklistEvaluator for one
evaluate call.  The constructors are mutually exclusive states of the
evaluator plus store: `clientNone` is `self._client is None` (connect never
succeeded, where `_get_earnings` returns early); `fetchError` is a
connected client whose GET or JSON decode raised
(redis.RedisError / json.JSONDecodeError); `keyAbsent` is a successful GET
that found no (or an empty) value; `value d` is a decoded payload. -/
inductive EarningsFetch
  | clientNone
  | fetchError
  | keyAbsent
  | value (d : EarningsData)
deriving DecidableEq, Repr

/-- True exactly when the evaluator has no Redis client
(`self._client is None`). -/
def EarningsFetch.clientIsNone : EarningsFetch → Bool
  | .clientNone => true
  | _ => false

/-- ChecklistEvaluator._get_earnings from checklist.py: `None` when the
client is absent, the read fails, or the key is missing; a decoded payload
is additionally discarded as stale when its usable `updated_at` timestamp
is more than EARNINGS_STALENESS_HOURS old. -/
def get_earnings (fetch : EarningsFetch) (now : ℚ) : Option EarningsData :=
  match fetch with
  | .clientNone => none
  | .fetchError => none
  | .keyAbsent => none
  | .value d =>
    match d.updated_at with
    | .unusable => some d
    | .at_time t =>
      if (now - t) / 3600 > EARNINGS_STALENESS_HOURS then none else some d

/-- ChecklistResult dataclass from checklist.py, with its field defaults. -/
structure ChecklistResult where
  stop_loss_defined : Bool := false
  position_sized_correctly : Bool := false
  rr_ratio_acceptable : Bool := false
  no_earnings_imminent : Bool := false
  regime_compatible : Bool := false
  all_checks_passed : Bool := false
  status : String := "REVIEW"
  earnings_date : Option String := none
  earnings_days_away : Option ℚ := none
  earnings_verified : Option Bool := none
  regime_id : String := "UNKNOWN"
  risk_pct : ℚ := 0
  rr_ratio : ℚ := 0
deriving DecidableEq, Repr

/-- ChecklistEvaluator.evaluate from checklist.py, following the source
statement by statement: checks 1 to 3 from the optional trade plan, check 4
from the earnings lookup (with the client-is-None conservative branch),
check 5 from the regime, then the aggregate flag and the
BLOCKED / GO / REVIEW status with the two hard gates first. -/
def checklist_evaluate (trade_plan : Option TradePlan) (regime_id : String)
    (fetch : EarningsFetch) (now : ℚ) : ChecklistResult :=
  let result : ChecklistResult := { regime_id := regime_id }
  let result :=
    match trade_plan with
    | some tp =>
      { result with
        stop_loss_defined := decide (0 < tp.stop_price)
        risk_pct := tp.risk_pct
        position_sized_correctly := decide (tp.risk_pct ≤ MAX_RISK_PCT_REVIEW)
        rr_ratio := tp.risk_reward_ratio
        rr_ratio_acceptable :=
          tp.plan_valid && decide (minRrRatio ≤ tp.risk_reward_ratio) }
    | none => result
  let earnings := get_earnings fetch now
  let result :=
    match earnings with
    | none =>
      if fetch.clientIsNone then
        { result with no_earnings_imminent := false }
      else
        { result with no_earnings_imminent := true }
    | some e =>
      let days_away := e.days_away.getD 999
      { result with
        earnings_date := e.date
        earnings_days_away := some days_away
        earnings_verified := e.verified
        no_earnings_imminent := decide (EARNINGS_HARD_GATE_DAYS < days_away) }
  let result := { result with regime_compatible := decide (regime_id ∉ BEAR_REGIMES) }
  let result :=
    { result with
      all_checks_passed :=
        result.stop_loss_defined && result.position_sized_correctly
          && result.rr_ratio_acceptable && result.no_earnings_imminent
          && result.regime_compatible }
  let is_earnings_blocked :=
    match result.earnings_days_away with
    | some d => decide (d ≤ EARNINGS_HARD_GATE_DAYS)
    | none => false
  let is_size_blocked :=
    match trade_plan with
    | some tp => decide (MAX_RISK_PCT_BLOCKED < tp.risk_pct)
    | none => false
  if is_earnings_blocked || is_size_blocked then
    { result with status := "BLOCKED" }
  else if result.all_checks_passed then
    { result with status := "GO" }
  else
    { result with status := "REVIEW" }

/-- Models CPython percent-style "%.0f" formatting of a rational, up to the
round-half-to-even and binary-float detail (no theorem below depends on the
produced text). -/
def fmt0 (q : ℚ) : String := toString (round q)

/-- Models CPython "%.2f" formatting of a non-negative rational, up to the
same caveat as `fmt0`. -/
def fmt2 (q : ℚ) : String :=
  let cents := (round (q * 100)).natAbs
  let fracStr :=
    if cents % 100 < 10 then "0" ++ toString (cents % 100)
    else toString (cents % 100)
  (if q < 0 then "-" else "") ++ toString (cents / 100) ++ "." ++ fracStr

/-- Constant TradePlanEngine._SNAP_PROXIMITY_PCT from trade_planner.py. -/
def SNAP_PROXIMITY_PCT : ℚ := 3 / 2

/-- Constant TradePlanEngine._SUPPORT_BUFFER from trade_planner.py. -/
def SUPPORT_BUFFER : ℚ := 5 / 1000

/-- The TradePlanEngine constructor parameters that `_calculate_stop` reads,
with their rules.yaml defaults. -/
structure StopConfig where
  atr_multiplier : ℚ := 2
  stop_min_pct : ℚ := 3
  stop_max_pct : ℚ := 15
deriving DecidableEq, Repr

/-- The tuple `_calculate_stop` returns, plus the warnings list it appends
to (the Python mutates the caller's list in place). -/
structure StopResult where
  stop_price : ℚ
  stop_method : String
  stop_pct : ℚ
  support_level_used : Option String
  warnings : List String
deriving DecidableEq, Repr

/-- The support_levels dict built inside `_calculate_stop`: the four fixed
indicator keys, kept in insertion order, restricted to values strictly
between 0 and the entry price. -/
def supportLevels (entry_price : ℚ) (indicators : List (String × ℚ)) :
    List (String × ℚ) :=
  ["SMA_20", "SMA_50", "SMA_200", "BB_LOWER"].filterMap fun key =>
    match indicators.lookup key with
    | some v => if 0 < v ∧ v < entry_price then some (key, v) else none
    | none => none

/-- The best-support selection loop of `_calculate_stop`: among levels
within SNAP_PROXIMITY_PCT of the stop and strictly above it, keep the
lowest price, first name winning ties. -/
def snapCandidate (entry_price raw_stop : ℚ)
    (levels : List (String × ℚ)) : Option (String × ℚ) :=
  levels.foldl
    (fun best p =>
      let dist_pct := |p.2 - raw_stop| / entry_price * 100
      if dist_pct ≤ SNAP_PROXIMITY_PCT ∧ raw_stop < p.2 then
        match best with
        | none => some p
        | some b => if p.2 < b.2 then some p else best
      else best)
    none

/-- Step 1 of TradePlanEngine._calculate_stop (trade_planner.py): the
configured percentage stop, or the ATR stop with floor widening and hard
cap; yields (raw_stop, stop_method, stop_pct, warnings). -/
def calcStep1 (cfg : StopConfig) (symbol_stop_pct : Option ℚ)
    (entry_price atr : ℚ) (warnings : List String) :
    ℚ × String × ℚ × List String :=
  match symbol_stop_pct with
  | some p =>
    (entry_price * (1 - p), "config_" ++ fmt0 (p * 100) ++ "pct", p * 100, warnings)
  | none =>
    let raw_stop := entry_price - atr * cfg.atr_multiplier
    let stop_pct := (entry_price - raw_stop) / entry_price * 100
    if stop_pct < cfg.stop_min_pct then
      let floor_pct := cfg.stop_min_pct + 1
      (entry_price * (1 - floor_pct / 100),
       "percentage_" ++ fmt0 floor_pct ++ "pct",
       floor_pct,
       warnings ++ ["ATR-based stop was <" ++ fmt0 cfg.stop_min_pct
         ++ "% — widened to " ++ fmt0 floor_pct ++ "%"])
    else if cfg.stop_max_pct < stop_pct then
      (entry_price * (90 / 100), "percentage_10pct", 10,
       warnings ++ ["ATR-based stop was >15% — capped at 10%"])
    else
      (raw_stop, "atr_2x", stop_pct, warnings)

/-- TradePlanEngine._calculate_stop from trade_planner.py.
`symbol_stop_pct` is `self.symbol_exit_strategies.get(symbol, {}).get("stop_loss")`.
Step 1 picks the configured percentage stop or the ATR stop with the
floor-plus-one widening and the hard 10 percent cap; step 2 snaps the stop
to just below a nearby support level when one qualifies. -/
def calculate_stop (cfg : StopConfig) (symbol_stop_pct : Option ℚ)
    (entry_price atr : ℚ) (indicators : List (String × ℚ))
    (warnings : List String) : StopResult :=
  let step1 := calcStep1 cfg symbol_stop_pct entry_price atr warnings
  let raw_stop := step1.1
  let stop_method := step1.2.1
  let stop_pct := step1.2.2.1
  let warnings := step1.2.2.2
  match snapCandidate entry_price raw_stop (supportLevels entry_price indicators) with
  | some (best_name, best_price) =>
    let snapped_stop := best_price * (1 - SUPPORT_BUFFER)
    { stop_price := snapped_stop
      stop_method := "support_" ++ best_name.toLower
      stop_pct := (entry_price - snapped_stop) / entry_price * 100
      support_level_used := some (best_name ++ " $" ++ fmt2 best_price)
      warnings := warnings ++ ["Stop snapped below " ++ best_name ++ " ($"
        ++ fmt2 best_price ++ ") → $" ++ fmt2 snapped_stop] }
  | none =>
    { stop_price := raw_stop
      stop_method := stop_method
      stop_pct := stop_pct
      support_level_used := none
      warnings := warnings }

/-- PositionInfo dataclass from state_manager.py; dates are epoch seconds. -/
structure PositionInfo where
  entry_price : ℚ
  avg_cost_basis : ℚ
  total_shares : ℚ
  total_cost : ℚ
  scale_in_count : Nat := 0
  entry_date : Option ℚ := none
  last_scale_in_date : Option ℚ := none
deriving DecidableEq, Repr

/-- PositionInfo.add_shares from state_manager.py (scale-in).  Division by a
zero share total would raise in Python; in ℚ it yields 0. -/
def PositionInfo.add_shares (p : PositionInfo) (price shares now : ℚ) : PositionInfo :=
  let total_shares := p.total_shares + shares
  let total_cost := p.total_cost + price * shares
  { p with
    total_shares := total_shares
    total_cost := total_cost
    avg_cost_basis := total_cost / total_shares
    scale_in_count := p.scale_in_count + 1
    last_scale_in_date := some now }

/-- SymbolState dataclass from state_manager.py.  The signal-history deque
is a plain list here with the maxlen-50 drop applied on append. -/
structure SymbolState where
  symbol : String
  last_update : Option ℚ := none
  last_indicators : List (String × ℚ) := []
  current_signal : Option AggregatedSignal := none
  signal_history : List Signal := []
  has_position : Bool := false
  position_side : Option String := none
  position_info : Option PositionInfo := none
deriving DecidableEq, Repr

/-- SignalHistory.add_signal from state_manager.py: deque append with
maxlen 50 (oldest entries fall off the left). -/
def addSignalHistory (history : List Signal) (s : Signal) : List Signal :=
  let appended := history ++ [s]
  if 50 < appended.length then appended.drop (appended.length - 50) else appended

/-- The StateManager symbol map `self._states`, as an association list. -/
abbrev StateMap := List (String × SymbolState)

/-- The SymbolState a lookup of `symbol` observes: the stored entry, or the
freshly constructed default that `get_state` would create. -/
def viewState (m : StateMap) (symbol : String) : SymbolState :=
  (m.lookup symbol).getD { symbol := symbol }

/-- StateManager.get_state from state_manager.py: get or lazily create the
entry, returning the (possibly grown) map alongside the state. -/
def get_state (m : StateMap) (symbol : String) : SymbolState × StateMap :=
  match m.lookup symbol with
  | some s => (s, m)
  | none =>
    let s : SymbolState := { symbol := symbol }
    (s, (symbol, s) :: m)

/-- Write back the mutated state object for `symbol` (Python mutates the
shared object in place; here the binding is replaced). -/
def setState (m : StateMap) (symbol : String) (s : SymbolState) : StateMap :=
  m.map fun p => if p.1 = symbol then (p.1, s) else p

/-- StateManager.get_position from state_manager.py: the position info when
`has_position` is set, else None.  (The `get_state` insertion it performs
does not change what any lookup observes, so the map is left as is.) -/
def get_position (m : StateMap) (symbol : String) : Option PositionInfo :=
  let state := viewState m symbol
  if state.has_position then state.position_info else none

/-- StateManager.open_position from state_manager.py. -/
def open_position (m : StateMap) (symbol : String) (price shares : ℚ)
    (timestamp : ℚ) : StateMap :=
  let (state, m) := get_state m symbol
  let state :=
    { state with
      has_position := true
      position_side := some "long"
      position_info := some
        { entry_price := price
          avg_cost_basis := price
          total_shares := shares
          total_cost := price * shares
          scale_in_count := 0
          entry_date := some timestamp } }
  setState m symbol state

/-- StateManager.add_to_position from state_manager.py (scale-in): None and
no mutation when there is no existing position (`not state.has_position or
not state.position_info`, a PositionInfo object being always truthy). -/
def add_to_position (m : StateMap) (symbol : String) (price shares now : ℚ) :
    Option PositionInfo × StateMap :=
  let (state, m) := get_state m symbol
  match state.position_info with
  | none => (none, m)
  | some info =>
    if state.has_position = false then (none, m)
    else
      let info := info.add_shares price shares now
      let state := { state with position_info := some info }
      (some info, setState m symbol state)

/-- StateManager.close_position from state_manager.py: None when
`has_position` is unset; otherwise clear the three position fields and
return the final info. -/
def close_position (m : StateMap) (symbol : String) :
    Option PositionInfo × StateMap :=
  let (state, m) := get_state m symbol
  if state.has_position = false then (none, m)
  else
    let position_info := state.position_info
    let state :=
      { state with
        has_position := false
        position_side := none
        position_info := none }
    (position_info, setState m symbol state)

/-- StateManager.clear_stale_signals from state_manager.py: null out
current signals older than `max_age_seconds`, touching nothing else — in
particular never removing a symbol entry. -/
def clear_stale_signals (m : StateMap) (now : ℚ) (max_age_seconds : ℚ) : StateMap :=
  m.map fun p =>
    match p.2.current_signal with
    | some sig =>
      if max_age_seconds < now - sig.timestamp then
        (p.1, { p.2 with current_signal := none })
      else p
    | none => p

/-- The methods the StateManager class in state_manager.py defines. -/
def stateManagerMethods : List String :=
  ["__init__", "get_state", "update_indicators", "record_signal",
   "get_all_current_signals", "get_symbols_with_signal", "get_all_symbols",
   "clear_stale_signals", "get_summary", "open_position", "add_to_position",
   "close_position", "get_position", "get_open_positions",
   "get_position_metadata"]

/-- The StateManager methods DecisionEngineService._maybe_publish_rankings
invokes (service.py lines 636 to 671), in call order. -/
def rankingSweepStateManagerCalls : List String :=
  ["get_all_current_signals", "evict_stale_states", "get_summary"]

/-- The service settings `_should_publish` reads. -/
structure PublishSettings where
  min_publish_confidence : ℚ
  debounce_seconds : ℚ
deriving DecidableEq, Repr

/-- The debounce-map eviction inside `_should_publish` (service.py): once the
map holds more than 100 entries, drop entries older than 30 minutes. -/
def evictDebounceEntries (last_publish : List (String × ℚ)) (now : ℚ) :
    List (String × ℚ) :=
  if 100 < last_publish.length then
    last_publish.filter fun p => decide (now - 1800 < p.2)
  else last_publish

/-- DecisionEngineService._should_publish from service.py: confidence gate,
debounce-map eviction, per-symbol debounce, then the SELL suppression that
only applies while the position tracker is known connected. -/
def should_publish (settings : PublishSettings)
    (last_publish : List (String × ℚ)) (now : ℚ)
    (position_tracker_connected : Bool) (states : StateMap)
    (symbol : String) (signal_type : SignalType)
    (aggregate_confidence : ℚ) : Bool :=
  if aggregate_confidence < settings.min_publish_confidence then false
  else
    let last_publish := evictDebounceEntries last_publish now
    let debounced :=
      match last_publish.lookup symbol with
      | some last => decide (now - last < settings.debounce_seconds)
      | none => false
    if debounced then false
    else if signal_type = SignalType.SELL ∧ position_tracker_connected = true
        ∧ get_position states symbol = none then false
    else true

/-- The debounce check of `_should_publish` passes: after the eviction pass,
either the symbol has no recorded publish time or the elapsed time reaches
the configured debounce window. -/
def debouncePasses (settings : PublishSettings)
    (last_publish : List (String × ℚ)) (now : ℚ) (symbol : String) : Bool :=
  match (evictDebounceEntries last_publish now).lookup symbol with
  | some last => decide (settings.debounce_seconds ≤ now - last)
  | none => true

section HelperLemmas

/-- Every value of an association list built with constant weight 1 looks up
to 1, and absent keys default to 1. -/
theorem dictGet_const_one (k : String) :
    ∀ w : List (String × ℚ), (∀ p ∈ w, p.2 = 1) → dictGet w k 1 = 1 := by
  intro w
  induction w with
  | nil => intro _; rfl
  | cons p t ih =>
    intro h
    have hp : p.2 = 1 := h p (List.mem_cons_self _ _)
    have ht : ∀ q ∈ t, q.2 = 1 := fun q hq => h q (List.mem_cons_of_mem _ hq)
    by_cases hk : (k == p.1)
    · simp [dictGet, List.lookup, hk, hp]
    · have := ih ht
      simp only [Bool.not_eq_true] at hk
      simpa [dictGet, List.lookup, hk] using this

/-- Summing a constant over a mapped list. -/
theorem sum_map_const_rat (c : ℚ) (l : List Signal) :
    (l.map fun _ => c).sum = l.length * c := by
  induction l with
  | nil => simp
  | cons a t ih => simp [ih]; ring

/-- The weighted average of signals that all carry confidence `c` (with the
default equal weights) is `c`. -/
theorem weighted_average_const (c : ℚ) (l : List Signal) (hne : l ≠ [])
    (hall : ∀ s ∈ l, s.confidence = c) : weighted_average l none = c := by
  unfold weighted_average
  rw [if_neg hne]
  have hw : ∀ p ∈ l.map fun s => (s.rule_name, (1 : ℚ)), p.2 = 1 := by
    intro p hp
    rcases List.mem_map.mp hp with ⟨s, _, rfl⟩
    rfl
  have hget : (l.map fun s => dictGet (l.map fun s => (s.rule_name, (1 : ℚ))) s.rule_name 1)
      = l.map fun _ => (1 : ℚ) := by
    apply List.map_congr_left
    intro s _
    exact dictGet_const_one s.rule_name _ hw
  have hgetc : (l.map fun s =>
        s.confidence * dictGet (l.map fun s => (s.rule_name, (1 : ℚ))) s.rule_name 1)
      = l.map fun _ => c := by
    apply List.map_congr_left
    intro s hs
    rw [dictGet_const_one s.rule_name _ hw, hall s hs, mul_one]
  have hlen : (0 : ℚ) < l.length := by
    have : 0 < l.length := List.length_pos.mpr hne
    exact_mod_cast this
  simp only [hget, hgetc, sum_map_const_rat]
  rw [if_pos]
  · rw [mul_one]
    field_simp
  · rw [mul_one]
    exact hlen

/-- The state `get_state` returns is exactly what a lookup observes. -/
theorem get_state_fst (m : StateMap) (symbol : String) :
    (get_state m symbol).1 = viewState m symbol := by
  unfold get_state viewState
  cases m.lookup symbol <;> rfl

/-- The lazy insertion `get_state` performs does not change what a lookup of
the same symbol observes. -/
theorem viewState_get_state_snd (m : StateMap) (symbol : String) :
    viewState (get_state m symbol).2 symbol = viewState m symbol := by
  unfold get_state viewState
  cases h : m.lookup symbol with
  | some s => simp [h]
  | none => simp [List.lookup, h]

end HelperLemmas

/-- C4: for every non-empty list of N triggered signals all carrying the
same confidence c (no per-rule weights configured), the consensus-boost
aggregate equals min(c + min(0.05 × (N − 1), 0.15), 1.0). -/
theorem consensus_boost_equal_confidence (c : ℚ) (l : List Signal)
    (hne : l ≠ []) (hall : ∀ s ∈ l, s.confidence = c) :
    consensus_boost l
      = min (c + min ((5 / 100) * ((l.length : ℚ) - 1)) (15 / 100)) 1 := by
  unfold consensus_boost
  rw [if_neg hne, weighted_average_const c l hne hall, mul_comm]

/-- Five equal-confidence signals at 0.7 for the C4 witness. -/
def equalSignalsFive : List Signal :=
  ["r1", "r2", "r3", "r4", "r5"].map fun n =>
    { rule_name := n, rule_description := "", signal_type := SignalType.BUY,
      confidence := 7 / 10, reasoning := n }

/-- Four equal-confidence signals at 0.95 for the C4 witness. -/
def equalSignalsFour : List Signal :=
  ["r1", "r2", "r3", "r4"].map fun n =>
    { rule_name := n, rule_description := "", signal_type := SignalType.BUY,
      confidence := 95 / 100, reasoning := n }

/-- Witness for C4 at the two worked examples the spec gives:
c = 0.7 with N = 5 boosts to 0.85, and c = 0.95 with N = 4 clamps to 1. -/
theorem consensus_boost_equal_confidence_witness :
    consensus_boost equalSignalsFive
        = min ((7 / 10 : ℚ) + min ((5 / 100) * ((equalSignalsFive.length : ℚ) - 1)) (15 / 100)) 1
      ∧ consensus_boost equalSignalsFive = 85 / 100
      ∧ consensus_boost equalSignalsFour = 1 := by
  refine ⟨consensus_boost_equal_confidence (7 / 10) equalSignalsFive (by simp [equalSignalsFive])
      ?_, ?_, ?_⟩
  · intro s hs
    fin_cases hs <;> norm_num [equalSignalsFive]
  · simp [consensus_boost, weighted_average, dictGet, equalSignalsFive, List.lookup, min_def]
    norm_num
  · simp [consensus_boost, weighted_average, dictGet, equalSignalsFour, List.lookup, min_def]
    norm_num

/-- C5: the regime multiplier reaches only BUY confidence — every non-BUY
signal type gets multiplier 1 in any regime, the BUY multipliers are
BULL 1.0, SIDEWAYS 0.7, BEAR 0.3, UNKNOWN 1.0 with default 1.0 for any
other regime string, and a SELL or WATCH aggregate keeps the raw
consensus-boost confidence untouched. -/
theorem regime_multiplier_only_buy :
    (∀ regime signal_type, signal_type ≠ "BUY" → get_multiplier regime signal_type = 1)
    ∧ get_multiplier "BULL" "BUY" = 1
    ∧ get_multiplier "SIDEWAYS" "BUY" = 7 / 10
    ∧ get_multiplier "BEAR" "BUY" = 3 / 10
    ∧ get_multiplier "UNKNOWN" "BUY" = 1
    ∧ (∀ regime, regime ≠ "BULL" → regime ≠ "SIDEWAYS" → regime ≠ "BEAR" →
        regime ≠ "UNKNOWN" → get_multiplier regime "BUY" = 1)
    ∧ (∀ ctx symbol signal_type signals rules_evaluated timestamp,
        signal_type = SignalType.SELL ∨ signal_type = SignalType.WATCH →
        (aggregate_signals ctx symbol signal_type signals rules_evaluated
          timestamp).aggregate_confidence = consensus_boost signals) := by
  refine ⟨?_,
    by simp [get_multiplier, dictGet, REGIME_MULTIPLIERS, List.lookup],
    by simp [get_multiplier, dictGet, REGIME_MULTIPLIERS, List.lookup],
    by simp [get_multiplier, dictGet, REGIME_MULTIPLIERS, List.lookup],
    by simp [get_multiplier, dictGet, REGIME_MULTIPLIERS, List.lookup],
    ?_, ?_⟩
  · intro regime signal_type h
    unfold get_multiplier
    rw [if_pos h]
  · intro regime h1 h2 h3 h4
    have b1 : (regime == "BULL") = false := by simp [h1]
    have b2 : (regime == "SIDEWAYS") = false := by simp [h2]
    have b3 : (regime == "BEAR") = false := by simp [h3]
    have b4 : (regime == "UNKNOWN") = false := by simp [h4]
    simp [get_multiplier, dictGet, REGIME_MULTIPLIERS, List.lookup, b1, b2, b3, b4]
  · intro ctx symbol signal_type signals rules_evaluated timestamp h
    have hmul : get_multiplier ctx.regime signal_type.value = 1 := by
      rcases h with rfl | rfl <;> rfl
    simp [aggregate_signals, hmul]

/-- Minimal market-context state for concrete inputs: no reader configured. -/
def noReaderCtx : MarketContextState :=
  { present := false, regime := "UNKNOWN", regime_confidence := 0 }

/-- One concrete SELL signal for the C5 witness. -/
def sellSignalW : Signal :=
  { rule_name := "macd_cross_down", rule_description := "",
    signal_type := SignalType.SELL, confidence := 6 / 10, reasoning := "sell" }

/-- Witness for C5: in a BEAR regime a SELL signal keeps multiplier 1 and a
SELL aggregate keeps its consensus-boost confidence. -/
theorem regime_multiplier_only_buy_witness :
    get_multiplier "BEAR" "SELL" = 1
    ∧ (aggregate_signals { present := true, regime := "BEAR", regime_confidence := 9 / 10 }
        "WPM" SignalType.SELL [sellSignalW] 1 0).aggregate_confidence
      = consensus_boost [sellSignalW] :=
  ⟨regime_multiplier_only_buy.1 "BEAR" "SELL" (by decide),
   regime_multiplier_only_buy.2.2.2.2.2.2 _ "WPM" _ [sellSignalW] 1 0 (Or.inl rfl)⟩

/-- C3 as the code has it: with equal BUY and SELL trigger counts, no BUY or
SELL aggregate is produced; a WATCH aggregate is produced exactly when any
WATCH signals triggered, and the pass abstains entirely only when none did. -/
theorem buy_sell_tie_abstains_or_watch (cfg : AggregationConfig)
    (ctx : MarketContextState) (symbol : String) (triggered : List Signal)
    (rules_evaluated : Nat) (timestamp : ℚ)
    (htie : (buyBucket triggered).length = (sellBucket triggered).length) :
    (∀ agg, evaluate_rules_decision cfg ctx symbol triggered rules_evaluated timestamp
        = some agg → agg.signal_type = SignalType.WATCH)
    ∧ (watchBucket triggered = [] →
        evaluate_rules_decision cfg ctx symbol triggered rules_evaluated timestamp = none)
    ∧ (watchBucket triggered ≠ [] →
        ∃ agg, evaluate_rules_decision cfg ctx symbol triggered rules_evaluated timestamp
            = some agg ∧ agg.signal_type = SignalType.WATCH) := by
  simp only [evaluate_rules_decision]
  rw [htie]
  simp only [lt_self_iff_false, and_false, if_false]
  refine ⟨?_, ?_, ?_⟩
  · intro agg h
    by_cases hw : watchBucket triggered = []
    · rw [if_neg (by simp [hw])] at h
      exact absurd h (by simp)
    · rw [if_pos (by simp [hw])] at h
      cases h
      rfl
  · intro hw
    rw [if_neg (by simp [hw])]
  · intro hw
    rw [if_pos (by simp [hw])]
    exact ⟨_, rfl, rfl⟩

/-- Concrete BUY signal for the C3 counterexample. -/
def buySignalT : Signal :=
  { rule_name := "rsi_oversold", rule_description := "",
    signal_type := SignalType.BUY, confidence := 6 / 10, reasoning := "buy" }

/-- Concrete SELL signal for the C3 counterexample. -/
def sellSignalT : Signal :=
  { rule_name := "macd_cross_down", rule_description := "",
    signal_type := SignalType.SELL, confidence := 6 / 10, reasoning := "sell" }

/-- Concrete WATCH signal for the C3 counterexample. -/
def watchSignalT : Signal :=
  { rule_name := "volume_spike", rule_description := "",
    signal_type := SignalType.WATCH, confidence := 5 / 10, reasoning := "watch" }

/-- Counterexample to C3 as stated: one BUY, one SELL and one WATCH trigger
(an exact BUY/SELL tie), yet the pass does produce an aggregated signal — a
WATCH one — rather than abstaining. -/
theorem tie_with_watch_produces_signal :
    evaluate_rules_decision {} noReaderCtx "WPM"
        [buySignalT, sellSignalT, watchSignalT] 3 0 ≠ none
    ∧ (evaluate_rules_decision {} noReaderCtx "WPM"
        [buySignalT, sellSignalT, watchSignalT] 3 0).map AggregatedSignal.signal_type
      = some SignalType.WATCH := by
  constructor
  · simp [evaluate_rules_decision, buyBucket, sellBucket, watchBucket,
      buySignalT, sellSignalT, watchSignalT]
  · simp [evaluate_rules_decision, buyBucket, sellBucket, watchBucket,
      buySignalT, sellSignalT, watchSignalT, aggregate_signals, noReaderCtx]

/-- Witness for the amended C3: a one-BUY one-SELL tie with no WATCH
triggers makes the pass abstain entirely. -/
theorem buy_sell_tie_abstains_witness :
    evaluate_rules_decision {} noReaderCtx "WPM" [buySignalT, sellSignalT] 2 0
      = none :=
  (buy_sell_tie_abstains_or_watch {} noReaderCtx "WPM" [buySignalT, sellSignalT]
      2 0 (by decide)).2.1 (by decide)

/-- Evaluating the checklist yields this explicit record.  This is a proof
device: it lets the checklist claims be settled by case analysis on the
inputs instead of re-tracing the sequential record updates in every proof. -/
theorem checklist_evaluate_eq (tp : Option TradePlan) (regime_id : String)
    (fetch : EarningsFetch) (now : ℚ) :
    checklist_evaluate tp regime_id fetch now =
      let c1 := match tp with | some p => decide (0 < p.stop_price) | none => false
      let c2 := match tp with
        | some p => decide (p.risk_pct ≤ MAX_RISK_PCT_REVIEW) | none => false
      let c3 := match tp with
        | some p => p.plan_valid && decide (minRrRatio ≤ p.risk_reward_ratio)
        | none => false
      let e := get_earnings fetch now
      let days := e.map fun d => d.days_away.getD 999
      let c4 := match e with
        | none => !fetch.clientIsNone
        | some d => decide (EARNINGS_HARD_GATE_DAYS < d.days_away.getD 999)
      let c5 := decide (regime_id ∉ BEAR_REGIMES)
      let all5 := c1 && c2 && c3 && c4 && c5
      let eblock := match days with
        | some d => decide (d ≤ EARNINGS_HARD_GATE_DAYS) | none => false
      let sblock := match tp with
        | some p => decide (MAX_RISK_PCT_BLOCKED < p.risk_pct) | none => false
      { stop_loss_defined := c1
        position_sized_correctly := c2
        rr_ratio_acceptable := c3
        no_earnings_imminent := c4
        regime_compatible := c5
        all_checks_passed := all5
        status := if eblock || sblock then "BLOCKED" else if all5 then "GO" else "REVIEW"
        earnings_date := e.bind fun d => d.date
        earnings_days_away := days
        earnings_verified := e.bind fun d => d.verified
        regime_id := regime_id
        risk_pct := match tp with | some p => p.risk_pct | none => 0
        rr_ratio := match tp with | some p => p.risk_reward_ratio | none => 0 } := by
  rcases tp with _ | p <;>
    rcases hge : get_earnings fetch now with _ | e <;>
    cases hb : fetch.clientIsNone <;>
    simp [checklist_evaluate, hge, hb] <;>
    try (split_ifs <;> rfl)

/-- Counterexample to C2 as stated: with a connected client whose read
fails (redis.RedisError or json.JSONDecodeError), the code treats the
failure like an absent key and the earnings check passes — it is not set to
failed as the claim requires. -/
theorem earnings_read_error_passes_check :
    (checklist_evaluate none "BULL" EarningsFetch.fetchError 0).no_earnings_imminent
      = true := by
  simp [checklist_evaluate_eq, get_earnings, EarningsFetch.clientIsNone]

/-- C2 as the code has it: the earnings check is failed only when the
connection was never established; a connected client whose read fails with
a store or decode error is treated like an absent key (check passes), and a
reachable store whose key is absent or stale also passes the check. -/
theorem earnings_unreachable_handling (tp : Option TradePlan)
    (regime_id : String) (now : ℚ) :
    (checklist_evaluate tp regime_id EarningsFetch.clientNone now).no_earnings_imminent
        = false
    ∧ (checklist_evaluate tp regime_id EarningsFetch.fetchError now).no_earnings_imminent
        = true
    ∧ (checklist_evaluate tp regime_id EarningsFetch.keyAbsent now).no_earnings_imminent
        = true
    ∧ (∀ d, get_earnings (EarningsFetch.value d) now = none →
        (checklist_evaluate tp regime_id (EarningsFetch.value d) now).no_earnings_imminent
          = true) := by
  refine ⟨?_, ?_, ?_, ?_⟩
  · simp [checklist_evaluate_eq, get_earnings, EarningsFetch.clientIsNone]
  · simp [checklist_evaluate_eq, get_earnings, EarningsFetch.clientIsNone]
  · simp [checklist_evaluate_eq, get_earnings, EarningsFetch.clientIsNone]
  · intro d hd
    simp [checklist_evaluate_eq, EarningsFetch.clientIsNone, hd]

/-- Earnings payload whose updated_at timestamp is stale relative to the
witness clock below. -/
def staleEarnings : EarningsData :=
  { days_away := some 2, date := some "2026-10-20", verified := some true,
    updated_at := UpdatedAt.at_time 0 }

/-- Witness for the amended C2 at concrete inputs: a never-connected client
fails the check, and a stale payload (100000 s is over 24 h old) passes it. -/
theorem earnings_unreachable_handling_witness :
    (checklist_evaluate none "BULL" EarningsFetch.clientNone 100000).no_earnings_imminent
        = false
    ∧ (checklist_evaluate none "BULL" (EarningsFetch.value staleEarnings)
        100000).no_earnings_imminent = true := by
  refine ⟨(earnings_unreachable_handling none "BULL" 100000).1,
    (earnings_unreachable_handling none "BULL" 100000).2.2.2 staleEarnings ?_⟩
  simp only [get_earnings, staleEarnings, EARNINGS_STALENESS_HOURS]
  norm_num

/-- C1: a checklist evaluation is BLOCKED exactly when the earnings
days-away value is known and at most 5, or a trade plan is present with
risk percentage above 5; otherwise the status is GO when all five checks
passed and REVIEW in every remaining case — in particular a BEAR regime
with the four other checks passing yields REVIEW, never BLOCKED. -/
theorem checklist_status_characterization (tp : Option TradePlan)
    (regime_id : String) (fetch : EarningsFetch) (now : ℚ) :
    ((checklist_evaluate tp regime_id fetch now).status = "BLOCKED" ↔
        (∃ d, (checklist_evaluate tp regime_id fetch now).earnings_days_away = some d
            ∧ d ≤ EARNINGS_HARD_GATE_DAYS)
      ∨ (∃ plan, tp = some plan ∧ MAX_RISK_PCT_BLOCKED < plan.risk_pct))
    ∧ ((checklist_evaluate tp regime_id fetch now).status ≠ "BLOCKED" →
        (checklist_evaluate tp regime_id fetch now).status =
          if ((checklist_evaluate tp regime_id fetch now).stop_loss_defined
              && (checklist_evaluate tp regime_id fetch now).position_sized_correctly
              && (checklist_evaluate tp regime_id fetch now).rr_ratio_acceptable
              && (checklist_evaluate tp regime_id fetch now).no_earnings_imminent
              && (checklist_evaluate tp regime_id fetch now).regime_compatible)
          then "GO" else "REVIEW")
    ∧ (regime_id = "BEAR" →
        (checklist_evaluate tp regime_id fetch now).stop_loss_defined = true →
        (checklist_evaluate tp regime_id fetch now).position_sized_correctly = true →
        (checklist_evaluate tp regime_id fetch now).rr_ratio_acceptable = true →
        (checklist_evaluate tp regime_id fetch now).no_earnings_imminent = true →
        (checklist_evaluate tp regime_id fetch now).status = "REVIEW") := by
  simp only [checklist_evaluate_eq]
  rcases tp with _ | p <;>
    rcases hge : get_earnings fetch now with _ | e <;>
    simp only [hge] <;>
    refine ⟨?_, ?_, ?_⟩
  · simp
  · intro h
    split_ifs <;> simp_all
  · intro hr _ _ _ _
    simp_all
  · by_cases hdays : (e.days_away.getD 999) ≤ EARNINGS_HARD_GATE_DAYS <;>
      simp [hdays]
  · intro h
    split_ifs at h ⊢ <;> simp_all
  · intro hr h1 _ _ _
    exact absurd h1 (by simp)
  · by_cases hrisk : MAX_RISK_PCT_BLOCKED < p.risk_pct <;>
      simp [hrisk] <;> split_ifs <;> simp
  · intro h
    split_ifs at h ⊢ <;> simp_all
  · intro hr h1 h2 h3 h4
    split_ifs with hblk hall
    · exfalso
      simp only [decide_eq_true_eq] at h2
      simp only [Option.map_none', Option.map_some', Bool.false_or,
        Bool.or_eq_true, decide_eq_true_eq] at hblk
      have hc2 : MAX_RISK_PCT_REVIEW = (2 : ℚ) := rfl
      have hc5 : MAX_RISK_PCT_BLOCKED = (5 : ℚ) := rfl
      linarith [hc2 ▸ h2, hc5 ▸ hblk]
    · exfalso
      simp_all [BEAR_REGIMES]
    · rfl
  · by_cases hdays : (e.days_away.getD 999) ≤ EARNINGS_HARD_GATE_DAYS <;>
      by_cases hrisk : MAX_RISK_PCT_BLOCKED < p.risk_pct <;>
      simp [hdays, hrisk] <;> split_ifs <;> simp
  · intro h
    split_ifs at h ⊢ <;> simp_all
  · intro hr h1 h2 h3 h4
    split_ifs with hblk hall
    · exfalso
      simp only [decide_eq_true_eq] at h2 h4
      simp only [Option.map_none', Option.map_some', Bool.false_or,
        Bool.or_eq_true, decide_eq_true_eq] at hblk
      have hc2 : MAX_RISK_PCT_REVIEW = (2 : ℚ) := rfl
      have hc5 : MAX_RISK_PCT_BLOCKED = (5 : ℚ) := rfl
      rcases hblk with hd | hrk
      · linarith
      · linarith [hc2 ▸ h2, hc5 ▸ hrk]
    · exfalso
      simp_all [BEAR_REGIMES]
    · rfl

/-- A concrete trade plan whose risk percentage (6) exceeds the hard block
threshold. -/
def riskyPlan : TradePlan :=
  { setup_type := SetupType.SIGNAL
    rules_contributed := ["rsi_oversold"]
    entry_price := 4567 / 100
    entry_zone_low := 4540 / 100
    entry_zone_high := 4590 / 100
    valid_until := 0
    stop_price := 4327 / 100
    stop_method := "atr_2x"
    stop_pct := 525 / 100
    target_1 := 5047 / 100
    target_2 := 5287 / 100
    symbol_target_pct := none
    resistance_note := none
    risk_reward_ratio := 2
    shares := 10
    dollar_risk := 24
    risk_pct := 6
    position_value := 45670 / 100
    invalidation_price := 42
    plan_valid := true
    rr_warning := none
    warnings := [] }

/-- Witness for C1: a plan at 6 percent risk is hard-blocked even with the
store reachable and no earnings key present. -/
theorem checklist_status_characterization_witness :
    (checklist_evaluate (some riskyPlan) "BULL" EarningsFetch.keyAbsent 0).status
      = "BLOCKED" :=
  (checklist_status_characterization (some riskyPlan) "BULL"
      EarningsFetch.keyAbsent 0).1.mpr
    (Or.inr ⟨riskyPlan, rfl, by norm_num [riskyPlan, MAX_RISK_PCT_BLOCKED]⟩)

/-- C8: with a null trade plan, checks 1 to 3 are false, checks 4 and 5
still evaluate exactly as they would with any plan present, and a known
earnings date inside the 5-day hard-gate window still forces BLOCKED. -/
theorem checklist_null_plan (regime_id : String) (fetch : EarningsFetch)
    (now : ℚ) (tp : TradePlan) :
    (checklist_evaluate none regime_id fetch now).stop_loss_defined = false
    ∧ (checklist_evaluate none regime_id fetch now).position_sized_correctly = false
    ∧ (checklist_evaluate none regime_id fetch now).rr_ratio_acceptable = false
    ∧ (checklist_evaluate none regime_id fetch now).no_earnings_imminent
        = (checklist_evaluate (some tp) regime_id fetch now).no_earnings_imminent
    ∧ (checklist_evaluate none regime_id fetch now).regime_compatible
        = (checklist_evaluate (some tp) regime_id fetch now).regime_compatible
    ∧ (∀ d, (checklist_evaluate none regime_id fetch now).earnings_days_away = some d →
        d ≤ EARNINGS_HARD_GATE_DAYS →
        (checklist_evaluate none regime_id fetch now).status = "BLOCKED") := by
  simp only [checklist_evaluate_eq]
  rcases hge : get_earnings fetch now with _ | e <;>
    simp only [hge, Option.map_none', Option.map_some'] <;>
    refine ⟨by trivial, by trivial, by trivial, by trivial, by trivial, ?_⟩
  · exact fun d hd => absurd hd (by simp)
  · intro d hd hle
    have : e.days_away.getD 999 = d := by simpa using hd
    subst this
    simp [hle]

/-- Earnings payload three days out, for the C8 witness. -/
def imminentEarnings : EarningsData :=
  { days_away := some 3, date := some "2026-10-15", verified := some true,
    updated_at := UpdatedAt.unusable }

/-- Witness for C8: with no trade plan and earnings three days away, check 1
is failed and the status is still BLOCKED. -/
theorem checklist_null_plan_witness :
    (checklist_evaluate none "BULL" (EarningsFetch.value imminentEarnings)
        0).stop_loss_defined = false
    ∧ (checklist_evaluate none "BULL" (EarningsFetch.value imminentEarnings)
        0).status = "BLOCKED" := by
  refine ⟨(checklist_null_plan "BULL" (EarningsFetch.value imminentEarnings) 0 riskyPlan).1, ?_⟩
  refine (checklist_null_plan "BULL" (EarningsFetch.value imminentEarnings) 0
      riskyPlan).2.2.2.2.2 3 ?_ (by norm_num [EARNINGS_HARD_GATE_DAYS])
  simp [checklist_evaluate_eq, get_earnings, imminentEarnings]

/-- When the support-snapping step finds no qualifying level, the stop
calculation returns the step-1 values untouched. -/
theorem calculate_stop_no_snap (cfg : StopConfig) (symbol_stop_pct : Option ℚ)
    (entry_price atr : ℚ) (indicators : List (String × ℚ))
    (warnings : List String)
    (h : (calculate_stop cfg symbol_stop_pct entry_price atr indicators
        warnings).support_level_used = none) :
    calculate_stop cfg symbol_stop_pct entry_price atr indicators warnings =
      { stop_price := (calcStep1 cfg symbol_stop_pct entry_price atr warnings).1
        stop_method := (calcStep1 cfg symbol_stop_pct entry_price atr warnings).2.1
        stop_pct := (calcStep1 cfg symbol_stop_pct entry_price atr warnings).2.2.1
        support_level_used := none
        warnings := (calcStep1 cfg symbol_stop_pct entry_price atr warnings).2.2.2 } := by
  unfold calculate_stop at h ⊢
  cases hc : snapCandidate entry_price
      (calcStep1 cfg symbol_stop_pct entry_price atr warnings).1
      (supportLevels entry_price indicators) with
  | none => simp [hc]
  | some p =>
    rcases p with ⟨name, price⟩
    simp only [hc] at h
    exact absurd h (by simp)

/-- C7: with no per-symbol configured stop percentage and no support level
within snapping proximity, an ATR stop implying a distance below the
configured minimum is widened to exactly floor-plus-one percent and a
warning is recorded; one implying a distance above the configured maximum
is capped to exactly 10 percent and a warning is recorded; otherwise the
stop equals entry − ATR × multiplier and the warnings are untouched. -/
theorem atr_stop_floor_cap (cfg : StopConfig) (entry_price atr : ℚ)
    (indicators : List (String × ℚ)) (warnings : List String)
    (hnosnap : (calculate_stop cfg none entry_price atr indicators
        warnings).support_level_used = none) :
    ((entry_price - (entry_price - atr * cfg.atr_multiplier)) / entry_price * 100
        < cfg.stop_min_pct →
      (calculate_stop cfg none entry_price atr indicators warnings).stop_price
          = entry_price * (1 - (cfg.stop_min_pct + 1) / 100)
      ∧ (calculate_stop cfg none entry_price atr indicators warnings).warnings.length
          = warnings.length + 1)
    ∧ (¬ (entry_price - (entry_price - atr * cfg.atr_multiplier)) / entry_price * 100
          < cfg.stop_min_pct →
      cfg.stop_max_pct
          < (entry_price - (entry_price - atr * cfg.atr_multiplier)) / entry_price * 100 →
      (calculate_stop cfg none entry_price atr indicators warnings).stop_price
          = entry_price * (90 / 100)
      ∧ (calculate_stop cfg none entry_price atr indicators warnings).warnings.length
          = warnings.length + 1)
    ∧ (¬ (entry_price - (entry_price - atr * cfg.atr_multiplier)) / entry_price * 100
          < cfg.stop_min_pct →
      ¬ cfg.stop_max_pct
          < (entry_price - (entry_price - atr * cfg.atr_multiplier)) / entry_price * 100 →
      (calculate_stop cfg none entry_price atr indicators warnings).stop_price
          = entry_price - atr * cfg.atr_multiplier
      ∧ (calculate_stop cfg none entry_price atr indicators warnings).warnings
          = warnings) := by
  rw [calculate_stop_no_snap cfg none entry_price atr indicators warnings hnosnap]
  refine ⟨?_, ?_, ?_⟩
  · intro h1
    simp only [calcStep1]
    rw [if_pos h1]
    simp
  · intro h1 h2
    simp only [calcStep1]
    rw [if_neg h1, if_pos h2]
    simp
  · intro h1 h2
    simp only [calcStep1]
    rw [if_neg h1, if_neg h2]
    simp

/-- Witness for C7 at the default configuration: entry 100, ATR 1 implies a
2 percent raw stop, below the 3 percent minimum, so the stop is widened to
4 percent and one warning is recorded. -/
theorem atr_stop_floor_cap_witness :
    (calculate_stop {} none 100 1 [] []).stop_price
        = 100 * (1 - (({} : StopConfig).stop_min_pct + 1) / 100)
    ∧ (calculate_stop {} none 100 1 [] []).warnings.length
        = List.length ([] : List String) + 1 :=
  (atr_stop_floor_cap {} 100 1 [] []
      (by norm_num [calculate_stop, calcStep1, supportLevels, snapCandidate])).1
    (by norm_num)

/-- C9: for a SELL signal that passes the confidence and debounce checks,
publication is suppressed exactly when the position tracker connected and
the State Manager records no open position for the symbol; with the tracker
not connected, a SELL signal is never suppressed for lack of a position. -/
theorem sell_suppression_iff_tracker_and_no_position
    (settings : PublishSettings) (last_publish : List (String × ℚ)) (now : ℚ)
    (position_tracker_connected : Bool) (states : StateMap) (symbol : String)
    (aggregate_confidence : ℚ)
    (hconf : ¬ aggregate_confidence < settings.min_publish_confidence)
    (hdeb : debouncePasses settings last_publish now symbol = true) :
    should_publish settings last_publish now position_tracker_connected states
        symbol SignalType.SELL aggregate_confidence = false
      ↔ position_tracker_connected = true ∧ get_position states symbol = none := by
  unfold should_publish
  rw [if_neg hconf]
  unfold debouncePasses at hdeb
  cases hl : (evictDebounceEntries last_publish now).lookup symbol with
  | none =>
    simp only [hl]
    split_ifs with hcond <;> simp_all
  | some t =>
    rw [hl] at hdeb
    have hnd : ¬ (now - t < settings.debounce_seconds) := by
      simp only [decide_eq_true_eq] at hdeb
      linarith
    simp only [hl, decide_eq_false hnd]
    split_ifs with hcond <;> simp_all

/-- Witness for C9: SELL at confidence 3/4 against a 1/2 threshold, empty
debounce map, tracker connected, no tracked position — suppressed. -/
theorem sell_suppression_witness :
    should_publish { min_publish_confidence := 1 / 2, debounce_seconds := 300 }
        [] 1000 true [] "WPM" SignalType.SELL (3 / 4) = false
      ↔ true = true ∧ get_position [] "WPM" = none :=
  sell_suppression_iff_tracker_and_no_position
    { min_publish_confidence := 1 / 2, debounce_seconds := 300 }
    [] 1000 true [] "WPM" (3 / 4) (by norm_num)
    (by simp [debouncePasses, evictDebounceEntries])

/-- C10: for a symbol with no open position recorded (and the reachable-state
invariant that `has_position` tracks the presence of `position_info`), both
scale-in and close return None and the position fields the symbol's state
exposes are unchanged. -/
theorem no_position_ops_noop (m : StateMap) (symbol : String)
    (price shares now : ℚ)
    (hinv : (viewState m symbol).has_position
        = ((viewState m symbol).position_info).isSome)
    (hno : get_position m symbol = none) :
    (add_to_position m symbol price shares now).1 = none
    ∧ (close_position m symbol).1 = none
    ∧ viewState (add_to_position m symbol price shares now).2 symbol
        = viewState m symbol
    ∧ viewState (close_position m symbol).2 symbol = viewState m symbol := by
  have hhp : (viewState m symbol).has_position = false := by
    cases h : (viewState m symbol).has_position
    · rfl
    · exfalso
      unfold get_position at hno
      rw [h] at hinv
      simp only [h, if_true] at hno
      rw [hno] at hinv
      simp at hinv
  rcases hgs : get_state m symbol with ⟨state, m2⟩
  have hstate : state = viewState m symbol := by
    have hf := get_state_fst m symbol
    rw [hgs] at hf
    exact hf
  have hview : viewState m2 symbol = viewState m symbol := by
    have hv := viewState_get_state_snd m symbol
    rw [hgs] at hv
    exact hv
  have hsp : state.has_position = false := by rw [hstate]; exact hhp
  refine ⟨?_, ?_, ?_, ?_⟩
  · simp only [add_to_position, hgs]
    cases hpi : state.position_info with
    | none => rfl
    | some info => simp [hsp]
  · simp only [close_position, hgs]
    rw [if_pos hsp]
  · simp only [add_to_position, hgs]
    cases hpi : state.position_info with
    | none => simpa using hview
    | some info => simp [hsp, hview]
  · simp only [close_position, hgs]
    rw [if_pos hsp]
    simpa using hview

/-- Witness for C10: on an empty state map, scale-in and close of an
untracked symbol return None and leave the observable state unchanged. -/
theorem no_position_ops_noop_witness :
    (add_to_position [] "AAPL" 10 5 0).1 = none
    ∧ (close_position [] "AAPL").1 = none
    ∧ viewState (add_to_position [] "AAPL" 10 5 0).2 "AAPL" = viewState [] "AAPL"
    ∧ viewState (close_position [] "AAPL").2 "AAPL" = viewState [] "AAPL" :=
  no_position_ops_noop [] "AAPL" 10 5 0 (by rfl)
    (by simp [get_position, viewState])

/-- A stale aggregated signal (timestamp 0) for the eviction theorem. -/
def staleAggSignal : AggregatedSignal :=
  { symbol := "WPM", signal_type := SignalType.BUY, aggregate_confidence := 0,
    primary_reasoning := "", contributing_signals := [], timestamp := 0 }

/-- A symbol state holding only the stale signal above. -/
def staleSymbolState : SymbolState :=
  { symbol := "WPM", current_signal := some staleAggSignal }

/-- C6 fails on the code: the periodic ranking sweep invokes a StateManager
method named evict_stale_states, but the StateManager class defines no such
method (the call raises AttributeError at runtime), and the one stale-state
operation it does define, clear_stale_signals, nulls out old signals while
always keeping every symbol entry — no whole-entry eviction exists. -/
theorem evict_stale_states_missing :
    "evict_stale_states" ∈ rankingSweepStateManagerCalls
    ∧ decide ("evict_stale_states" ∈ stateManagerMethods) = false
    ∧ clear_stale_signals [("WPM", staleSymbolState)] 1000 300
        = [("WPM", { staleSymbolState with current_signal := none })]
    ∧ (clear_stale_signals [("WPM", staleSymbolState)] 1000 300).map Prod.fst
        = [("WPM", staleSymbolState)].map Prod.fst := by
  have h3 : clear_stale_signals [("WPM", staleSymbolState)] 1000 300
      = [("WPM", { staleSymbolState with current_signal := none })] := by
    norm_num [clear_stale_signals, staleSymbolState, staleAggSignal]
  refine ⟨by decide, by decide, h3, by rw [h3]; simp⟩

end DecisionEngine
